import Mathlib

/-!
Shallow embedding of the invoice lifecycle engine of the billing backend
(`src/models/invoice.py`, `src/models/product.py`).

Modelling conventions:
* Python floats carrying monetary and quantity values are modelled by exact
  rationals (`ℚ`); dates are modelled by integers (ordered day numbers).
* Status strings ('pending', 'partial', 'paid', 'overdue') stay strings.
* Each mutating method runs inside a sqlite connection used as a context
  manager, which commits on success and rolls back on an exception; it is
  therefore modelled as a function into `Except String _` whose `.error`
  outcome leaves the caller's state untouched (rollback) and whose `.ok`
  outcome carries the committed state.
* A Python truthiness test `not item.get('product_id')` succeeds when the
  id is absent or zero, hence product ids are `Option Nat` and the test is
  `getD 0 = 0`; quantities and prices are always-present rationals, for
  which truthiness `not x` coincides with `x = 0`.
-/

set_option allowUnsafeReducibility true
attribute [local semireducible] Rat.add Rat.sub Rat.mul Rat.inv

deriving instance DecidableEq for Except

namespace Billing

/-- A row of the `products` table (`src/models/product.py`); only the fields
the invoice engine touches are kept. -/
structure Product where
  id : Nat
  name : String
  unit : String
  stock_quantity : ℚ
  deriving DecidableEq, Repr, Inhabited

/-- `Product.update_stock`: `new_quantity = max(0, self.stock_quantity + quantity_change)`. -/
def Product.update_stock (p : Product) (quantity_change : ℚ) : Product :=
  { p with stock_quantity := max 0 (p.stock_quantity + quantity_change) }

/-- A row of the `invoice_items` table. -/
structure InvoiceItemRow where
  id : Nat
  invoice_id : Nat
  product_id : Nat
  product_name : String
  unit : String
  quantity : ℚ
  unit_price : ℚ
  total_price : ℚ
  deriving DecidableEq, Repr, Inhabited

/-- A row of the `invoice_payments` table. -/
structure PaymentRow where
  invoice_id : Nat
  amount : ℚ
  payment_method : String
  payment_date : ℤ
  reference_number : Option String
  deriving DecidableEq, Repr, Inhabited

/-- The `invoices` table row (monetary columns and status). -/
structure InvoiceRow where
  id : Nat
  shop_id : Nat
  invoice_number : String
  due_date : Option ℤ
  subtotal : ℚ
  tax_amount : ℚ
  discount_amount : ℚ
  total_amount : ℚ
  paid_amount : ℚ
  balance_amount : ℚ
  status : String
  deriving DecidableEq, Repr, Inhabited

/-- An invoice together with its item and payment rows (the aggregate the
engine mutates and persists as one unit). -/
structure InvoiceAgg where
  inv : InvoiceRow
  items : List InvoiceItemRow
  payments : List PaymentRow
  deriving DecidableEq, Repr, Inhabited

/-- One element of `items_data` passed to `Invoice.create`. -/
structure ItemDraft where
  product_id : Option Nat
  quantity : ℚ
  unit_price : ℚ
  deriving DecidableEq, Repr, Inhabited

/-- The fields of `invoice_data` that `Invoice.create` reads (after the
`float(... or 0)` coercions). -/
structure InvoiceData where
  invoice_number : Option String
  due_date : Option ℤ
  tax_amount : ℚ
  discount_amount : ℚ
  paid_amount : ℚ
  deriving DecidableEq, Repr, Inhabited

/-- One element of `return_items_data` passed to `Invoice.process_return`. -/
structure ReturnItem where
  invoice_item_id : Nat
  returned_quantity : ℚ
  deriving DecidableEq, Repr, Inhabited

/-- Sum of `total_price` over item rows (`SELECT SUM(total_price) ... or 0`). -/
def sumTotalPrice (items : List InvoiceItemRow) : ℚ :=
  (items.map (fun it => it.total_price)).sum

/-- Sum of `amount` over payment rows. -/
def sumPayments (payments : List PaymentRow) : ℚ :=
  (payments.map (fun pr => pr.amount)).sum

/-- The item loop of `Invoice.create`: validates each draft, materialises an
`invoice_items` row snapshotting the product's name/unit, and decrements the
product's stock by the raw SQL `stock_quantity = stock_quantity - ?`
(no clamping).  Raises (returns `.error`) at the first invalid draft. -/
def createItems (invoice_id : Nat) (products : List Product) :
    List ItemDraft → Nat → Except String (List InvoiceItemRow × List Product)
  | [], _ => .ok ([], products)
  | item :: rest, nextId =>
    if item.product_id.getD 0 = 0 then
      .error "Product ID is required for all items"
    else if item.quantity ≤ 0 then
      .error "Valid quantity is required for all items"
    else if item.unit_price ≤ 0 then
      .error "Valid unit price is required for all items"
    else
      match products.find? (fun p => p.id = item.product_id.getD 0) with
      | none => .error "Product not found"
      | some prod =>
        let row : InvoiceItemRow :=
          { id := nextId, invoice_id := invoice_id,
            product_id := item.product_id.getD 0,
            product_name := prod.name, unit := prod.unit,
            quantity := item.quantity, unit_price := item.unit_price,
            total_price := item.quantity * item.unit_price }
        let products' := products.map (fun p =>
          if p.id = item.product_id.getD 0 then
            { p with stock_quantity := p.stock_quantity - item.quantity }
          else p)
        match createItems invoice_id products' rest (nextId + 1) with
        | .error e => .error e
        | .ok (rows, ps) => .ok (row :: rows, ps)

namespace Invoice

/-- `Invoice.create`: computes totals, an initial status, inserts the invoice
row, then runs the per-item loop (validation, item rows, stock decrements).
No payment row is inserted for a supplied initial `paid_amount`.  On an
exception the surrounding `with` connection rolls the transaction back, so
the `.error` case carries no state. -/
def create (shop_id : Nat) (invoice_data : InvoiceData)
    (items_data : List ItemDraft) (products : List Product)
    (invoice_id : Nat) (generated_number : String) :
    Except String (InvoiceAgg × List Product) :=
  let invoice_number := invoice_data.invoice_number.getD generated_number
  let subtotal := (items_data.map (fun it => it.quantity * it.unit_price)).sum
  let tax_amount := invoice_data.tax_amount
  let discount_amount := invoice_data.discount_amount
  let total_amount := subtotal + tax_amount - discount_amount
  let initial_payment := invoice_data.paid_amount
  let balance_amount := total_amount - initial_payment
  let initial_status :=
    if balance_amount ≤ 0 then "paid"
    else if initial_payment > 0 then "partial"
    else "pending"
  match createItems invoice_id products items_data 1 with
  | .error e => .error e
  | .ok (rows, products') =>
    .ok ({ inv :=
            { id := invoice_id, shop_id := shop_id,
              invoice_number := invoice_number,
              due_date := invoice_data.due_date,
              subtotal := subtotal, tax_amount := tax_amount,
              discount_amount := discount_amount,
              total_amount := total_amount,
              paid_amount := initial_payment,
              balance_amount := balance_amount,
              status := initial_status },
           items := rows, payments := [] }, products')

/-- `Invoice.add_payment`: validates the amount against the current balance,
appends a payment row, recomputes `paid_amount`/`balance_amount`, derives a
base status and overrides it with `'overdue'` when the payment date is past a
set due date while a balance remains. -/
def add_payment (agg : InvoiceAgg) (amount : ℚ) (payment_method : String)
    (payment_date : ℤ) (reference_number : Option String) :
    Except String InvoiceAgg :=
  if amount ≤ 0 then
    .error "Payment amount must be positive"
  else if amount > agg.inv.balance_amount then
    .error "Payment amount cannot exceed balance amount"
  else
    let new_paid_amount := agg.inv.paid_amount + amount
    let new_balance_amount := agg.inv.total_amount - new_paid_amount
    let base_status :=
      if new_balance_amount ≤ 0 then "paid"
      else if new_paid_amount > 0 then "partial"
      else "pending"
    let new_status :=
      match agg.inv.due_date with
      | some dd =>
        if payment_date > dd ∧ new_balance_amount > 0 then "overdue"
        else base_status
      | none => base_status
    .ok { agg with
          inv := { agg.inv with
                   paid_amount := new_paid_amount,
                   balance_amount := new_balance_amount,
                   status := new_status },
          payments := agg.payments ++
            [{ invoice_id := agg.inv.id, amount := amount,
               payment_method := payment_method,
               payment_date := payment_date,
               reference_number := reference_number }] }

end Invoice

/-- The per-item loop of `Invoice.process_return`: entries with
`returned_quantity > 0` are looked up (first row matching the id), validated
against the current quantity, applied to the item row
(`quantity -= returned_quantity`, `total_price = new_quantity * unit_price`)
and to the product's stock (`stock_quantity += returned_quantity`); entries
with `returned_quantity <= 0` are skipped.  `acc` accumulates
`total_return_amount`. -/
def processReturnItems (items : List InvoiceItemRow) (products : List Product)
    (rets : List ReturnItem) (acc : ℚ) :
    Except String (List InvoiceItemRow × List Product × ℚ) :=
  match rets with
  | [] => .ok (items, products, acc)
  | r :: rest =>
    if r.returned_quantity > 0 then
      match items.find? (fun it => it.id = r.invoice_item_id) with
      | none => .error "Invoice item not found"
      | some orig =>
        if r.returned_quantity > orig.quantity then
          .error "Cannot return more than original quantity"
        else
          let return_amount := r.returned_quantity * orig.unit_price
          let new_quantity := orig.quantity - r.returned_quantity
          let new_total_price := new_quantity * orig.unit_price
          let items' := items.map (fun it =>
            if it.id = r.invoice_item_id then
              { it with quantity := new_quantity, total_price := new_total_price }
            else it)
          let products' := products.map (fun p =>
            if p.id = orig.product_id then
              { p with stock_quantity := p.stock_quantity + r.returned_quantity }
            else p)
          processReturnItems items' products' rest (acc + return_amount)
    else
      processReturnItems items products rest acc

namespace Invoice

/-- `Invoice.process_return`: applies the per-item loop, recomputes the new
subtotal from the item rows and the new total from the carried-over
tax/discount, reduces `paid_amount` by the proportional-refund policy,
updates `total_amount`/`paid_amount`/`balance_amount` (the stored `subtotal`
column is NOT updated), recomputes the status without an overdue check, and
records a negative `'refund'` payment row when a refund is due.  Returns the
gross `total_return_amount`. -/
def process_return (agg : InvoiceAgg) (products : List Product)
    (return_items_data : List ReturnItem) (today : ℤ) :
    Except String (InvoiceAgg × List Product × ℚ) :=
  match processReturnItems agg.items products return_items_data 0 with
  | .error e => .error e
  | .ok (items', products', total_return_amount) =>
    let new_subtotal := sumTotalPrice items'
    let new_total_amount := new_subtotal + agg.inv.tax_amount - agg.inv.discount_amount
    let current_paid_amount := agg.inv.paid_amount
    let new_paid_amount :=
      if current_paid_amount > new_total_amount then
        new_total_amount
      else if current_paid_amount > 0 then
        let original_total := agg.inv.total_amount
        if original_total > 0 then
          min new_total_amount (new_total_amount * (current_paid_amount / original_total))
        else 0
      else 0
    let new_balance_amount := new_total_amount - new_paid_amount
    let new_status :=
      if new_balance_amount ≤ 0 then "paid"
      else if new_paid_amount > 0 then "partial"
      else "pending"
    let refund_amount := current_paid_amount - new_paid_amount
    let payments' :=
      if refund_amount > 0 then
        agg.payments ++
          [{ invoice_id := agg.inv.id, amount := -refund_amount,
             payment_method := "refund", payment_date := today,
             reference_number := some ("RETURN-" ++ toString today) }]
      else agg.payments
    .ok ({ inv := { agg.inv with
                    total_amount := new_total_amount,
                    paid_amount := new_paid_amount,
                    balance_amount := new_balance_amount,
                    status := new_status },
           items := items', payments := payments' }, products', total_return_amount)

end Invoice

/-- Modelled from the spec (§4.1 `deriveStatus`): the status derivation the
specification prescribes for every mutator, used to compare the code's
status updates against the spec's rule. -/
def deriveStatus (balance_amount paid_amount : ℚ) (due_date : Option ℤ)
    (today : ℤ) : String :=
  if balance_amount ≤ 0 then "paid"
  else
    match due_date with
    | some dd =>
      if today > dd then "overdue"
      else if paid_amount > 0 then "partial"
      else "pending"
    | none =>
      if paid_amount > 0 then "partial"
      else "pending"

/-! ### Concrete scenario data (spec §8 Scenarios A, B, E and variants) -/

/-- One product with stock 10. -/
def prodsA : List Product := [⟨1, "Widget", "pc", 10⟩]

/-- Scenario A invoice data: `tax=10, discount=5`, no initial payment,
due date day 10. -/
def dataA : InvoiceData := ⟨none, some 10, 10, 5, 0⟩

/-- Scenario A item draft: `qty=3, unit_price=100`. -/
def itemA : ItemDraft := ⟨some 1, 3, 100⟩

/-- The invoice aggregate Scenario A's `create` yields. -/
def aggA : InvoiceAgg :=
  ⟨⟨1, 1, "INV-1", some 10, 300, 10, 5, 305, 0, 305, "pending"⟩,
   [⟨1, 1, 1, "Widget", "pc", 3, 100, 300⟩], []⟩

/-- Product stock after Scenario A's `create` (10 - 3 = 7). -/
def prodsA1 : List Product := [⟨1, "Widget", "pc", 7⟩]

/-- Scenario B: Scenario A after `add_payment(305, cash)` on day 5. -/
def aggB : InvoiceAgg :=
  ⟨⟨1, 1, "INV-1", some 10, 300, 10, 5, 305, 305, 0, "paid"⟩,
   [⟨1, 1, 1, "Widget", "pc", 3, 100, 300⟩], [⟨1, 305, "cash", 5, none⟩]⟩

/-- Scenario E: Scenario B after returning quantity 1 of the item on day 6.
The stored `subtotal` column keeps its pre-return value 300. -/
def aggE : InvoiceAgg :=
  ⟨⟨1, 1, "INV-1", some 10, 300, 10, 5, 205, 205, 0, "paid"⟩,
   [⟨1, 1, 1, "Widget", "pc", 2, 100, 200⟩],
   [⟨1, 305, "cash", 5, none⟩, ⟨1, -100, "refund", 6, some "RETURN-6"⟩]⟩

/-- Product stock after Scenario E's return (7 + 1 = 8). -/
def prodsE : List Product := [⟨1, "Widget", "pc", 8⟩]

/-- Invoice data with a positive initial payment (`paid_amount = 100`),
no tax or discount. -/
def dataP : InvoiceData := ⟨none, none, 0, 0, 100⟩

/-- Invoice data with a due date (day 0) already in the past at creation. -/
def dataD : InvoiceData := ⟨none, some 0, 0, 0, 0⟩

/-- Invoice data whose initial payment (400) exceeds the invoice total (305). -/
def dataO : InvoiceData := ⟨none, some 10, 10, 5, 400⟩

/-- Invoice data with every optional amount zero. -/
def dataZ : InvoiceData := ⟨none, none, 0, 0, 0⟩

/-! ### Helper lemmas about `Invoice.create` -/

/-- A draft `Invoice.create` rejects: falsy product id, non-positive quantity
or unit price, or an unknown product. -/
def badDraft (products : List Product) (it : ItemDraft) : Prop :=
  it.product_id.getD 0 = 0 ∨ it.quantity ≤ 0 ∨ it.unit_price ≤ 0 ∨
    products.find? (fun p => p.id = it.product_id.getD 0) = none

/-- Total quantity the drafts invoice against one product id. -/
def invoicedQty (items_data : List ItemDraft) (pid : Nat) : ℚ :=
  ((items_data.filter (fun it => it.product_id.getD 0 = pid)).map
    (fun it => it.quantity)).sum

theorem find?_eq_none_of_map_id (f : Product → Product)
    (hf : ∀ p, (f p).id = p.id) (products : List Product) (x : Nat) :
    ((products.map f).find? (fun p => p.id = x) = none) ↔
      (products.find? (fun p => p.id = x) = none) := by
  simp only [List.find?_eq_none, List.mem_map]
  constructor
  · intro h p hp
    have := h (f p) ⟨p, hp, rfl⟩
    simpa [hf] using this
  · rintro h q ⟨p, hp, rfl⟩
    simpa [hf] using h p hp

/-- `createItems` raises exactly when some draft is invalid. -/
theorem createItems_error_iff (invoice_id : Nat) :
    ∀ (items_data : List ItemDraft) (products : List Product) (nextId : Nat),
      (∃ e, createItems invoice_id products items_data nextId = .error e) ↔
        (∃ it ∈ items_data, badDraft products it) := by
  intro items_data
  induction items_data with
  | nil => intro products nextId; simp [createItems]
  | cons item rest ih =>
    intro products nextId
    by_cases h1 : item.product_id.getD 0 = 0
    · simp [createItems, h1, badDraft]
    · by_cases h2 : item.quantity ≤ 0
      · simp [createItems, h1, h2, badDraft]
      · by_cases h3 : item.unit_price ≤ 0
        · simp [createItems, h1, h2, h3, badDraft]
        · cases hf : products.find? (fun p => p.id = item.product_id.getD 0) with
          | none =>
            refine Iff.intro (fun _ => ⟨item, List.mem_cons_self item rest, ?_⟩) (fun _ => ?_)
            · exact Or.inr (Or.inr (Or.inr hf))
            · exact ⟨"Product not found", by simp [createItems, h1, h2, h3, hf]⟩
          | some prod =>
            have hids : ∀ p : Product,
                ((if p.id = item.product_id.getD 0 then
                  { p with stock_quantity := p.stock_quantity - item.quantity }
                 else p) : Product).id = p.id := by
              intro p; by_cases hp : p.id = item.product_id.getD 0 <;> simp [hp]
            constructor
            · rintro ⟨e, he⟩
              rcases hrec : createItems invoice_id (products.map (fun p =>
                  if p.id = item.product_id.getD 0 then
                    { p with stock_quantity := p.stock_quantity - item.quantity }
                  else p)) rest (nextId + 1) with e' | pr
              · have := (ih _ (nextId + 1)).mp ⟨e', hrec⟩
                rcases this with ⟨it, hmem, hbad⟩
                refine ⟨it, List.mem_cons_of_mem item hmem, ?_⟩
                rcases hbad with hb | hb | hb | hb
                · exact Or.inl hb
                · exact Or.inr (Or.inl hb)
                · exact Or.inr (Or.inr (Or.inl hb))
                · exact Or.inr (Or.inr (Or.inr
                    ((find?_eq_none_of_map_id _ hids products _).mp hb)))
              · exfalso
                obtain ⟨rows, ps⟩ := pr
                simp [createItems, h1, h2, h3, hf, hrec] at he
            · rintro ⟨it, hmem, hbad⟩
              rcases List.mem_cons.mp hmem with rfl | hmem'
              · rcases hbad with hb | hb | hb | hb
                · exact absurd hb h1
                · exact absurd hb h2
                · exact absurd hb h3
                · rw [hf] at hb; exact absurd hb (by simp)
              · have hbad' : badDraft (products.map (fun p =>
                    if p.id = item.product_id.getD 0 then
                      { p with stock_quantity := p.stock_quantity - item.quantity }
                    else p)) it := by
                  rcases hbad with hb | hb | hb | hb
                  · exact Or.inl hb
                  · exact Or.inr (Or.inl hb)
                  · exact Or.inr (Or.inr (Or.inl hb))
                  · exact Or.inr (Or.inr (Or.inr
                      ((find?_eq_none_of_map_id _ hids products _).mpr hb)))
                rcases (ih _ (nextId + 1)).mpr ⟨it, hmem', hbad'⟩ with ⟨e, he⟩
                refine ⟨e, ?_⟩
                simp [createItems, h1, h2, h3, hf, he]

/-- All fields of the invoice row a successful `Invoice.create` yields. -/
theorem create_ok_fields (shop_id : Nat) (d : InvoiceData)
    (items_data : List ItemDraft) (products : List Product)
    (invoice_id : Nat) (num : String) (agg : InvoiceAgg)
    (products' : List Product)
    (h : Invoice.create shop_id d items_data products invoice_id num =
      .ok (agg, products')) :
    agg.inv.subtotal = (items_data.map (fun it => it.quantity * it.unit_price)).sum ∧
    agg.inv.tax_amount = d.tax_amount ∧
    agg.inv.discount_amount = d.discount_amount ∧
    agg.inv.total_amount = agg.inv.subtotal + d.tax_amount - d.discount_amount ∧
    agg.inv.paid_amount = d.paid_amount ∧
    agg.inv.balance_amount = agg.inv.total_amount - d.paid_amount ∧
    agg.inv.due_date = d.due_date ∧
    agg.inv.status = (if agg.inv.balance_amount ≤ 0 then "paid"
      else if d.paid_amount > 0 then "partial" else "pending") ∧
    agg.payments = [] := by
  rcases hc : createItems invoice_id products items_data 1 with e | pr
  · simp [Invoice.create, hc] at h
  · obtain ⟨rows, ps⟩ := pr
    simp only [Invoice.create, hc, Except.ok.injEq, Prod.mk.injEq] at h
    obtain ⟨hagg, hps⟩ := h
    subst hagg
    exact ⟨rfl, rfl, rfl, rfl, rfl, rfl, rfl, rfl, rfl⟩

/-- The product-list effect of the item loop of `Invoice.create`: every
product's stock is decremented by exactly the total invoiced quantity
against it (no clamping). -/
theorem createItems_products_spec (invoice_id : Nat) :
    ∀ (items_data : List ItemDraft) (products : List Product) (nextId : Nat)
      (rows : List InvoiceItemRow) (products' : List Product),
      createItems invoice_id products items_data nextId = .ok (rows, products') →
      products' = products.map (fun p =>
        { p with stock_quantity := p.stock_quantity - invoicedQty items_data p.id }) := by
  intro items_data
  induction items_data with
  | nil =>
    intro products nextId rows products' h
    simp only [createItems, Except.ok.injEq, Prod.mk.injEq] at h
    rw [← h.2]
    have : ∀ p : Product,
        ({ p with stock_quantity := p.stock_quantity - invoicedQty [] p.id } : Product) = p := by
      intro p; simp [invoicedQty]
    simp [this]
  | cons item rest ih =>
    intro products nextId rows products' h
    by_cases h1 : item.product_id.getD 0 = 0
    · simp [createItems, h1] at h
    · by_cases h2 : item.quantity ≤ 0
      · simp [createItems, h1, h2] at h
      · by_cases h3 : item.unit_price ≤ 0
        · simp [createItems, h1, h2, h3] at h
        · cases hf : products.find? (fun p => p.id = item.product_id.getD 0) with
          | none => simp [createItems, h1, h2, h3, hf] at h
          | some prod =>
            rcases hrec : createItems invoice_id (products.map (fun p =>
                if p.id = item.product_id.getD 0 then
                  { p with stock_quantity := p.stock_quantity - item.quantity }
                else p)) rest (nextId + 1) with e' | pr
            · simp [createItems, h1, h2, h3, hf, hrec] at h
            · obtain ⟨rows', ps'⟩ := pr
              simp only [createItems, h1, h2, h3, hf, hrec, Except.ok.injEq,
                Prod.mk.injEq, if_neg, ite_false] at h
              have hps' := ih _ (nextId + 1) rows' ps' hrec
              rw [← h.2, hps', List.map_map]
              refine List.map_congr_left ?_
              intro p _
              by_cases hp : p.id = item.product_id.getD 0
              · simp only [Function.comp_apply, if_pos hp]
                have : invoicedQty (item :: rest) p.id =
                    item.quantity + invoicedQty rest p.id := by
                  simp [invoicedQty, List.filter_cons, hp.symm]
                simp [this, sub_sub]
              · simp only [Function.comp_apply, if_neg hp]
                have : invoicedQty (item :: rest) p.id = invoicedQty rest p.id := by
                  have : ¬ (item.product_id.getD 0 = p.id) := fun hcon => hp hcon.symm
                  simp [invoicedQty, List.filter_cons, this]
                simp [this]

/-! ### Helper lemmas about `Invoice.add_payment` -/

/-- All fields of a successful `Invoice.add_payment` outcome (status aside). -/
theorem add_payment_ok_fields (agg : InvoiceAgg) (amount : ℚ) (m : String)
    (pd : ℤ) (ref : Option String) (agg' : InvoiceAgg)
    (h : Invoice.add_payment agg amount m pd ref = .ok agg') :
    0 < amount ∧ amount ≤ agg.inv.balance_amount ∧
    agg'.inv.paid_amount = agg.inv.paid_amount + amount ∧
    agg'.inv.balance_amount = agg.inv.total_amount - (agg.inv.paid_amount + amount) ∧
    agg'.inv.total_amount = agg.inv.total_amount ∧
    agg'.inv.subtotal = agg.inv.subtotal ∧
    agg'.inv.tax_amount = agg.inv.tax_amount ∧
    agg'.inv.discount_amount = agg.inv.discount_amount ∧
    agg'.inv.due_date = agg.inv.due_date ∧
    agg'.items = agg.items ∧
    agg'.payments = agg.payments ++
      [{ invoice_id := agg.inv.id, amount := amount, payment_method := m,
         payment_date := pd, reference_number := ref }] := by
  by_cases h1 : amount ≤ 0
  · simp [Invoice.add_payment, h1] at h
  · by_cases h2 : amount > agg.inv.balance_amount
    · simp [Invoice.add_payment, h1, h2] at h
    · simp only [Invoice.add_payment, if_neg h1, if_neg h2, Except.ok.injEq] at h
      subst h
      exact ⟨not_le.mp h1, not_lt.mp h2, rfl, rfl, rfl, rfl, rfl, rfl, rfl, rfl, rfl⟩

/-- The base-then-override shape `add_payment` computes the status with is
the same function as the spec's `deriveStatus`. -/
theorem status_override_eq_derive (nb np : ℚ) (due : Option ℤ) (pd : ℤ) :
    (match due with
     | some dd =>
       if pd > dd ∧ nb > 0 then "overdue"
       else if nb ≤ 0 then "paid" else if np > 0 then "partial" else "pending"
     | none =>
       if nb ≤ 0 then "paid" else if np > 0 then "partial" else "pending") =
    deriveStatus nb np due pd := by
  cases due with
  | none => rfl
  | some dd =>
    by_cases hb : nb ≤ 0
    · have hcond : ¬ (pd > dd ∧ nb > 0) := by
        rintro ⟨_, hc⟩; exact absurd hb (not_le.mpr hc)
      rw [deriveStatus, if_pos hb]
      simp only [if_neg hcond, if_pos hb]
    · have hnb : nb > 0 := not_le.mp hb
      rw [deriveStatus, if_neg hb]
      by_cases hpd : pd > dd
      · simp only [if_pos (And.intro hpd hnb), if_neg hb, if_pos hpd]
      · have hcond : ¬ (pd > dd ∧ nb > 0) := by rintro ⟨hc, _⟩; exact hpd hc
        simp only [if_neg hcond, if_neg hb, if_neg hpd]

/-- A successful `add_payment` leaves the status `deriveStatus` would give
from the new figures with the payment's date as the reference date. -/
theorem add_payment_status_derived (agg : InvoiceAgg) (amount : ℚ) (m : String)
    (pd : ℤ) (ref : Option String) (agg' : InvoiceAgg)
    (h : Invoice.add_payment agg amount m pd ref = .ok agg') :
    agg'.inv.status = deriveStatus agg'.inv.balance_amount agg'.inv.paid_amount
      agg.inv.due_date pd := by
  by_cases h1 : amount ≤ 0
  · simp [Invoice.add_payment, h1] at h
  · by_cases h2 : amount > agg.inv.balance_amount
    · simp [Invoice.add_payment, h1, h2] at h
    · simp only [Invoice.add_payment, if_neg h1, if_neg h2, Except.ok.injEq] at h
      subst h
      exact status_override_eq_derive
        (agg.inv.total_amount - (agg.inv.paid_amount + amount))
        (agg.inv.paid_amount + amount) agg.inv.due_date pd

/-! ### Helper lemmas about `Invoice.process_return` -/

/-- All fields of a successful `Invoice.process_return` outcome, given the
outcome of the per-item loop.  The stored `subtotal` column is untouched;
the new total is recomputed from the updated item rows. -/
theorem process_return_ok_fields (agg : InvoiceAgg) (products : List Product)
    (rets : List ReturnItem) (today : ℤ) (agg' : InvoiceAgg)
    (products' : List Product) (r : ℚ)
    (h : Invoice.process_return agg products rets today = .ok (agg', products', r)) :
    processReturnItems agg.items products rets 0 = .ok (agg'.items, products', r) ∧
    agg'.inv.total_amount = sumTotalPrice agg'.items + agg.inv.tax_amount -
      agg.inv.discount_amount ∧
    agg'.inv.paid_amount =
      (if agg.inv.paid_amount > agg'.inv.total_amount then agg'.inv.total_amount
       else if agg.inv.paid_amount > 0 then
         (if agg.inv.total_amount > 0 then
            min agg'.inv.total_amount
              (agg'.inv.total_amount * (agg.inv.paid_amount / agg.inv.total_amount))
          else 0)
       else 0) ∧
    agg'.inv.balance_amount = agg'.inv.total_amount - agg'.inv.paid_amount ∧
    agg'.inv.status = (if agg'.inv.balance_amount ≤ 0 then "paid"
      else if agg'.inv.paid_amount > 0 then "partial" else "pending") ∧
    agg'.inv.subtotal = agg.inv.subtotal ∧
    agg'.inv.tax_amount = agg.inv.tax_amount ∧
    agg'.inv.discount_amount = agg.inv.discount_amount ∧
    agg'.inv.due_date = agg.inv.due_date ∧
    agg'.payments =
      (if agg.inv.paid_amount - agg'.inv.paid_amount > 0 then
        agg.payments ++
          [{ invoice_id := agg.inv.id,
             amount := -(agg.inv.paid_amount - agg'.inv.paid_amount),
             payment_method := "refund", payment_date := today,
             reference_number := some ("RETURN-" ++ toString today) }]
       else agg.payments) := by
  rcases hl : processReturnItems agg.items products rets 0 with e | tr
  · simp [Invoice.process_return, hl] at h
  · obtain ⟨items0, products0, r0⟩ := tr
    simp only [Invoice.process_return, hl, Except.ok.injEq, Prod.mk.injEq] at h
    obtain ⟨hagg, hps, hr⟩ := h
    subst hps; subst hr; subst hagg
    exact ⟨rfl, rfl, rfl, rfl, rfl, rfl, rfl, rfl, rfl, rfl⟩

/-! ### Further concrete data used by counterexamples and witnesses -/

/-- Empty-list `create` outcome: zero totals, no items, status `paid`. -/
def aggEmpty : InvoiceAgg := ⟨⟨1, 1, "INV-1", none, 0, 0, 0, 0, 0, 0, "paid"⟩, [], []⟩

/-- `create` outcome for `dataO` (initial payment 400 on a 305 total). -/
def aggO : InvoiceAgg :=
  ⟨⟨1, 1, "INV-1", some 10, 300, 10, 5, 305, 400, -95, "paid"⟩,
   [⟨1, 1, 1, "Widget", "pc", 3, 100, 300⟩], []⟩

/-- Item draft `qty=1, unit_price=100`. -/
def itemD : ItemDraft := ⟨some 1, 1, 100⟩

/-- `create` outcome for `dataD` (due date day 0 already past). -/
def aggD : InvoiceAgg :=
  ⟨⟨1, 1, "INV-1", some 0, 100, 0, 0, 100, 0, 100, "pending"⟩,
   [⟨1, 1, 1, "Widget", "pc", 1, 100, 100⟩], []⟩

/-- Product stock after creating `aggD` (10 - 1 = 9). -/
def prodsD1 : List Product := [⟨1, "Widget", "pc", 9⟩]

/-! ### Claim theorems -/

/-- C5 counterexample: `Invoice.create` with an empty item list does not
raise, contrary to the claim; it succeeds and persists an invoice with
subtotal 0 and no items. -/
theorem create_empty_items_accepted :
    Invoice.create 1 dataZ [] prodsA 1 "INV-1" = .ok (aggEmpty, prodsA) ∧
    aggEmpty.inv.subtotal = 0 ∧ aggEmpty.items = [] := by
  decide

/-- C5 (amended): `Invoice.create` raises exactly when some item draft is
invalid (falsy product id, non-positive quantity or unit price, or an
unknown product); an empty item list is accepted.  The `.error` outcome
carries no state: the transaction rolls back, so no invoice, item, payment
or stock change survives a failed call. -/
theorem create_error_iff_invalid_item (shop_id : Nat) (d : InvoiceData)
    (items_data : List ItemDraft) (products : List Product) (iid : Nat)
    (num : String) :
    (∃ e, Invoice.create shop_id d items_data products iid num = .error e) ↔
      ∃ it ∈ items_data, badDraft products it := by
  rw [← createItems_error_iff iid items_data products 1]
  constructor
  · rintro ⟨e, he⟩
    rcases hc : createItems iid products items_data 1 with e' | pr
    · exact ⟨e', rfl⟩
    · obtain ⟨rows, ps⟩ := pr
      simp [Invoice.create, hc] at he
  · rintro ⟨e, he⟩
    exact ⟨e, by simp [Invoice.create, he]⟩

/-- C7 counterexample: a supplied initial payment is not clamped to the
invoice total; paying 400 on a 305 invoice leaves `paid_amount = 400 >
total_amount = 305` and a negative balance. -/
theorem create_overpayment_not_clamped :
    Invoice.create 1 dataO [itemA] prodsA 1 "INV-1" = .ok (aggO, prodsA1) ∧
    ¬ (aggO.inv.paid_amount ≤ aggO.inv.total_amount) ∧
    ¬ (0 ≤ aggO.inv.balance_amount) := by
  decide

/-- C7 (amended): `Invoice.create` accepts the supplied initial payment
unchanged: `paid_amount` equals the draft's `paid_amount` and
`balance_amount = total_amount - paid_amount`, which is negative whenever
the initial payment exceeds the total. -/
theorem create_initial_payment_passthrough (shop_id : Nat) (d : InvoiceData)
    (items_data : List ItemDraft) (products : List Product) (iid : Nat)
    (num : String) (agg : InvoiceAgg) (products' : List Product)
    (h : Invoice.create shop_id d items_data products iid num = .ok (agg, products')) :
    agg.inv.paid_amount = d.paid_amount ∧
    agg.inv.balance_amount = agg.inv.total_amount - d.paid_amount := by
  obtain ⟨_, _, _, _, hpaid, hbal, _, _, _⟩ :=
    create_ok_fields shop_id d items_data products iid num agg products' h
  exact ⟨hpaid, hbal⟩

/-- Witness for C7's amended theorem at the 400-on-305 input. -/
theorem create_initial_payment_passthrough_witness :
    (Invoice.create 1 dataO [itemA] prodsA 1 "INV-1" = .ok (aggO, prodsA1)) ∧
    (aggO.inv.paid_amount = dataO.paid_amount ∧
     aggO.inv.balance_amount = aggO.inv.total_amount - dataO.paid_amount) :=
  ⟨by decide,
   create_initial_payment_passthrough 1 dataO [itemA] prodsA 1 "INV-1" aggO
     prodsA1 (by decide)⟩

/-- C8: `Invoice.add_payment` raises exactly when the amount is
non-positive or exceeds the current balance (overpayment rejected, not
clamped); the `.error` outcome carries no state, so a rejected call leaves
the invoice, its payments and its status untouched. -/
theorem addPayment_rejects_iff (agg : InvoiceAgg) (amount : ℚ) (m : String)
    (pd : ℤ) (ref : Option String) :
    (∃ e, Invoice.add_payment agg amount m pd ref = .error e) ↔
      (amount ≤ 0 ∨ amount > agg.inv.balance_amount) := by
  by_cases h1 : amount ≤ 0
  · simp [Invoice.add_payment, h1]
  · by_cases h2 : amount > agg.inv.balance_amount
    · simp [Invoice.add_payment, h1, h2]
    · simp [Invoice.add_payment, h1, h2]

/-- C4 counterexample: an invoice created with a due date already in the
past (due day 0, today day 5) and an open balance gets status `pending`,
while the claimed `deriveStatus` with reference date today yields
`overdue`: `create` performs no overdue check. -/
theorem create_ignores_overdue :
    Invoice.create 1 dataD [itemD] prodsA 1 "INV-1" = .ok (aggD, prodsD1) ∧
    aggD.inv.status = "pending" ∧
    deriveStatus aggD.inv.balance_amount aggD.inv.paid_amount aggD.inv.due_date 5
      = "overdue" ∧
    ("pending" : String) ≠ "overdue" := by
  decide

/-- C4 (amended): `add_payment` sets the status to `deriveStatus` of the new
figures with the payment's date as the reference date; `create` and
`process_return` derive the status as if no due date were set (no overdue
check): `deriveStatus` with `due_date = none`, for any reference date. -/
theorem status_recomputation_per_operation :
    (∀ (agg : InvoiceAgg) (amount : ℚ) (m : String) (pd : ℤ)
        (ref : Option String) (agg' : InvoiceAgg),
        Invoice.add_payment agg amount m pd ref = .ok agg' →
        agg'.inv.status = deriveStatus agg'.inv.balance_amount
          agg'.inv.paid_amount agg.inv.due_date pd) ∧
    (∀ (shop_id : Nat) (d : InvoiceData) (items_data : List ItemDraft)
        (products : List Product) (iid : Nat) (num : String)
        (agg : InvoiceAgg) (products' : List Product) (today : ℤ),
        Invoice.create shop_id d items_data products iid num = .ok (agg, products') →
        agg.inv.status = deriveStatus agg.inv.balance_amount
          agg.inv.paid_amount none today) ∧
    (∀ (agg : InvoiceAgg) (products : List Product) (rets : List ReturnItem)
        (today : ℤ) (agg' : InvoiceAgg) (products' : List Product) (r : ℚ)
        (refDate : ℤ),
        Invoice.process_return agg products rets today = .ok (agg', products', r) →
        agg'.inv.status = deriveStatus agg'.inv.balance_amount
          agg'.inv.paid_amount none refDate) := by
  refine ⟨?_, ?_, ?_⟩
  · intro agg amount m pd ref agg' h
    exact add_payment_status_derived agg amount m pd ref agg' h
  · intro shop_id d items_data products iid num agg products' today h
    obtain ⟨_, _, _, _, hpaid, _, _, hstatus, _⟩ :=
      create_ok_fields shop_id d items_data products iid num agg products' h
    rw [hstatus, hpaid]
    rfl
  · intro agg products rets today agg' products' r refDate h
    obtain ⟨_, _, _, _, hstatus, _, _, _, _, _⟩ :=
      process_return_ok_fields agg products rets today agg' products' r h
    rw [hstatus]
    rfl

/-- Witness for C4's amended theorem: Scenario B's payment on day 5. -/
theorem status_recomputation_witness :
    (Invoice.add_payment aggA 305 "cash" 5 none = .ok aggB) ∧
    aggB.inv.status = deriveStatus aggB.inv.balance_amount
      aggB.inv.paid_amount aggA.inv.due_date 5 :=
  ⟨by decide,
   status_recomputation_per_operation.1 aggA 305 "cash" 5 none aggB (by decide)⟩

/-- C3: the proportional-refund policy of `process_return`.  For a
successful call on an invoice with positive original total, the new total
is recomputed from the updated item rows with carried-over tax/discount;
the new `paid_amount` follows the claimed three-way policy; and a positive
refund appends a negative `'refund'` payment row with a generated
reference. -/
theorem processReturn_refund_policy (agg : InvoiceAgg)
    (products : List Product) (rets : List ReturnItem) (today : ℤ)
    (agg' : InvoiceAgg) (products' : List Product) (r : ℚ)
    (hT : 0 < agg.inv.total_amount)
    (h : Invoice.process_return agg products rets today = .ok (agg', products', r)) :
    agg'.inv.total_amount = sumTotalPrice agg'.items + agg.inv.tax_amount -
      agg.inv.discount_amount ∧
    agg'.inv.paid_amount =
      (if agg.inv.paid_amount > agg'.inv.total_amount then agg'.inv.total_amount
       else if agg.inv.paid_amount > 0 then
         min agg'.inv.total_amount
           (agg'.inv.total_amount * (agg.inv.paid_amount / agg.inv.total_amount))
       else 0) ∧
    (agg.inv.paid_amount - agg'.inv.paid_amount > 0 →
      agg'.payments = agg.payments ++
        [{ invoice_id := agg.inv.id,
           amount := -(agg.inv.paid_amount - agg'.inv.paid_amount),
           payment_method := "refund", payment_date := today,
           reference_number := some ("RETURN-" ++ toString today) }]) := by
  obtain ⟨_, htot, hpaid, _, _, _, _, _, _, hpay⟩ :=
    process_return_ok_fields agg products rets today agg' products' r h
  refine ⟨htot, ?_, ?_⟩
  · rw [hpaid]
    by_cases hgt : agg.inv.paid_amount > agg'.inv.total_amount
    · rw [if_pos hgt, if_pos hgt]
    · rw [if_neg hgt, if_neg hgt]
      by_cases hp : agg.inv.paid_amount > 0
      · rw [if_pos hp, if_pos hp, if_pos hT]
      · rw [if_neg hp, if_neg hp]
  · intro hrf
    rw [hpay, if_pos hrf]

/-- Witness for C3 at Scenario E: total 305 fully paid, returning quantity
1 of the 100-priced item leaves total 205, paid 205, a -100 refund row and
status paid. -/
theorem processReturn_refund_policy_witness :
    (0 < aggB.inv.total_amount) ∧
    (Invoice.process_return aggB prodsA1 [⟨1, 1⟩] 6 = .ok (aggE, prodsE, 100)) ∧
    (aggE.inv.total_amount = sumTotalPrice aggE.items + aggB.inv.tax_amount -
        aggB.inv.discount_amount ∧
     aggE.inv.paid_amount =
       (if aggB.inv.paid_amount > aggE.inv.total_amount then aggE.inv.total_amount
        else if aggB.inv.paid_amount > 0 then
          min aggE.inv.total_amount
            (aggE.inv.total_amount * (aggB.inv.paid_amount / aggB.inv.total_amount))
        else 0) ∧
     (aggB.inv.paid_amount - aggE.inv.paid_amount > 0 →
       aggE.payments = aggB.payments ++
         [{ invoice_id := aggB.inv.id,
            amount := -(aggB.inv.paid_amount - aggE.inv.paid_amount),
            payment_method := "refund", payment_date := 6,
            reference_number := some ("RETURN-" ++ toString (6 : ℤ)) }])) ∧
    aggE.inv.total_amount = 205 ∧ aggE.inv.paid_amount = 205 ∧
    aggB.inv.paid_amount - aggE.inv.paid_amount = 100 ∧
    aggE.inv.status = "paid" :=
  ⟨by decide, by decide,
   processReturn_refund_policy aggB prodsA1 [⟨1, 1⟩] 6 aggE prodsE 100
     (by decide) (by decide),
   by decide, by decide, by decide, by decide⟩

/-- C1 counterexample: the Scenario A → B → E chain.  After the return the
stored `subtotal` column keeps its pre-return value 300 while the total is
recomputed to 205, so `total_amount = subtotal + tax_amount -
discount_amount` fails right after `process_return`. -/
theorem processReturn_stale_subtotal :
    (Invoice.create 1 dataA [itemA] prodsA 1 "INV-1" = .ok (aggA, prodsA1)) ∧
    (Invoice.add_payment aggA 305 "cash" 5 none = .ok aggB) ∧
    (Invoice.process_return aggB prodsA1 [⟨1, 1⟩] 6 = .ok (aggE, prodsE, 100)) ∧
    aggE.inv.subtotal = 300 ∧ aggE.inv.total_amount = 205 ∧
    aggE.inv.total_amount ≠
      aggE.inv.subtotal + aggE.inv.tax_amount - aggE.inv.discount_amount := by
  decide

/-- C1 (amended): `balance_amount = total_amount - paid_amount` holds after
every operation; `total_amount = subtotal + tax_amount - discount_amount`
holds after `create` and is preserved by `add_payment`, but after
`process_return` the new total is tied to the recomputed item subtotal
(`sumTotalPrice` of the updated rows), not to the stale stored `subtotal`
column, which keeps its pre-return value. -/
theorem ledger_invariant_per_operation :
    (∀ (shop_id : Nat) (d : InvoiceData) (items_data : List ItemDraft)
        (products : List Product) (iid : Nat) (num : String)
        (agg : InvoiceAgg) (products' : List Product),
        Invoice.create shop_id d items_data products iid num = .ok (agg, products') →
        agg.inv.total_amount = agg.inv.subtotal + agg.inv.tax_amount -
          agg.inv.discount_amount ∧
        agg.inv.balance_amount = agg.inv.total_amount - agg.inv.paid_amount) ∧
    (∀ (agg : InvoiceAgg) (amount : ℚ) (m : String) (pd : ℤ)
        (ref : Option String) (agg' : InvoiceAgg),
        Invoice.add_payment agg amount m pd ref = .ok agg' →
        (agg.inv.total_amount = agg.inv.subtotal + agg.inv.tax_amount -
            agg.inv.discount_amount →
          agg'.inv.total_amount = agg'.inv.subtotal + agg'.inv.tax_amount -
            agg'.inv.discount_amount) ∧
        agg'.inv.balance_amount = agg'.inv.total_amount - agg'.inv.paid_amount) ∧
    (∀ (agg : InvoiceAgg) (products : List Product) (rets : List ReturnItem)
        (today : ℤ) (agg' : InvoiceAgg) (products' : List Product) (r : ℚ),
        Invoice.process_return agg products rets today = .ok (agg', products', r) →
        agg'.inv.balance_amount = agg'.inv.total_amount - agg'.inv.paid_amount ∧
        agg'.inv.total_amount = sumTotalPrice agg'.items + agg'.inv.tax_amount -
          agg'.inv.discount_amount ∧
        agg'.inv.subtotal = agg.inv.subtotal) := by
  refine ⟨?_, ?_, ?_⟩
  · intro shop_id d items_data products iid num agg products' h
    obtain ⟨hsub, htax, hdisc, htot, hpaid, hbal, _, _, _⟩ :=
      create_ok_fields shop_id d items_data products iid num agg products' h
    constructor
    · rw [htot, htax, hdisc]
    · rw [hbal, hpaid]
  · intro agg amount m pd ref agg' h
    obtain ⟨_, _, hpaid, hbal, htot, hsub, htax, hdisc, _, _, _⟩ :=
      add_payment_ok_fields agg amount m pd ref agg' h
    constructor
    · intro h0
      rw [htot, hsub, htax, hdisc, h0]
    · rw [hbal, htot, hpaid]
  · intro agg products rets today agg' products' r h
    obtain ⟨_, htot, _, hbal, _, hsub, htax, hdisc, _, _⟩ :=
      process_return_ok_fields agg products rets today agg' products' r h
    exact ⟨hbal, by rw [htot, htax, hdisc], hsub⟩

/-- Witness for C1's amended theorem at Scenario A's `create` and
Scenario E's return. -/
theorem ledger_invariant_witness :
    (Invoice.create 1 dataA [itemA] prodsA 1 "INV-1" = .ok (aggA, prodsA1)) ∧
    (aggA.inv.total_amount = aggA.inv.subtotal + aggA.inv.tax_amount -
        aggA.inv.discount_amount ∧
     aggA.inv.balance_amount = aggA.inv.total_amount - aggA.inv.paid_amount) ∧
    (Invoice.process_return aggB prodsA1 [⟨1, 1⟩] 6 = .ok (aggE, prodsE, 100)) ∧
    (aggE.inv.balance_amount = aggE.inv.total_amount - aggE.inv.paid_amount ∧
     aggE.inv.total_amount = sumTotalPrice aggE.items + aggE.inv.tax_amount -
        aggE.inv.discount_amount ∧
     aggE.inv.subtotal = aggB.inv.subtotal) :=
  ⟨by decide,
   ledger_invariant_per_operation.1 1 dataA [itemA] prodsA 1 "INV-1" aggA
     prodsA1 (by decide),
   by decide,
   ledger_invariant_per_operation.2.2 aggB prodsA1 [⟨1, 1⟩] 6 aggE prodsE 100
     (by decide)⟩

/-! ### C9: stock clamping -/

/-- Item draft `qty=5, unit_price=2` against a product with stock 3. -/
def itemN : ItemDraft := ⟨some 1, 5, 2⟩

/-- One product with stock 3. -/
def prodsLow : List Product := [⟨1, "Widget", "pc", 3⟩]

/-- `create` outcome for `itemN` over `prodsLow`. -/
def aggN : InvoiceAgg :=
  ⟨⟨1, 1, "INV-1", none, 10, 0, 0, 10, 0, 10, "pending"⟩,
   [⟨1, 1, 1, "Widget", "pc", 5, 2, 10⟩], []⟩

/-- Product stock after creating `aggN`: 3 - 5 = -2, negative. -/
def prodsN1 : List Product := [⟨1, "Widget", "pc", -2⟩]

/-- C9 counterexample: invoicing quantity 5 against stock 3 drives the
stock to -2: the per-item decrement in `Invoice.create` is a raw SQL
subtraction with no clamp at zero. -/
theorem create_stock_goes_negative :
    Invoice.create 1 dataZ [itemN] prodsLow 1 "INV-1" = .ok (aggN, prodsN1) ∧
    prodsN1.map (fun p => p.stock_quantity) = [-2] ∧
    ((-2 : ℚ) < 0) := by
  decide

/-- C9 (amended): `Product.update_stock` clamps at zero, but the per-item
decrement of `Invoice.create` bypasses it: each product's stock is reduced
by exactly the total invoiced quantity with no clamping, so it can go
negative. -/
theorem stock_clamped_only_in_update_stock :
    (∀ (p : Product) (c : ℚ), 0 ≤ (p.update_stock c).stock_quantity) ∧
    (∀ (shop_id : Nat) (d : InvoiceData) (items_data : List ItemDraft)
        (products : List Product) (iid : Nat) (num : String)
        (agg : InvoiceAgg) (products' : List Product),
        Invoice.create shop_id d items_data products iid num = .ok (agg, products') →
        products' = products.map (fun p =>
          { p with stock_quantity := p.stock_quantity - invoicedQty items_data p.id })) := by
  constructor
  · intro p c
    exact le_max_left 0 (p.stock_quantity + c)
  · intro shop_id d items_data products iid num agg products' h
    rcases hc : createItems iid products items_data 1 with e | pr
    · simp [Invoice.create, hc] at h
    · obtain ⟨rows, ps⟩ := pr
      simp only [Invoice.create, hc, Except.ok.injEq, Prod.mk.injEq] at h
      rw [← h.2]
      exact createItems_products_spec iid items_data products 1 rows ps hc

/-- Witness for C9's amended theorem: `update_stock` floors 3 - 5 at 0,
while `create` on the same figures leaves stock -2. -/
theorem stock_clamped_witness :
    (0 ≤ ((⟨1, "Widget", "pc", 3⟩ : Product).update_stock (-5)).stock_quantity) ∧
    (Invoice.create 1 dataZ [itemN] prodsLow 1 "INV-1" = .ok (aggN, prodsN1)) ∧
    prodsN1 = prodsLow.map (fun p =>
      { p with stock_quantity := p.stock_quantity - invoicedQty [itemN] p.id }) :=
  ⟨stock_clamped_only_in_update_stock.1 ⟨1, "Widget", "pc", 3⟩ (-5),
   by decide,
   stock_clamped_only_in_update_stock.2 1 dataZ [itemN] prodsLow 1 "INV-1"
     aggN prodsN1 (by decide)⟩

/-! ### C10: decimal representation and rounding -/

/-- Modelled from the spec (§4.1): a monetary value rounded to two decimals
is an integer count of hundredths. -/
def twoDecimalValue (q : ℚ) : Prop := ∃ k : ℤ, q = (k : ℚ) / 100

/-- Item draft `qty=1/2, unit_price=1/4` (both exactly representable as
binary floats, so the Python computation yields exactly 1/8 too). -/
def itemF : ItemDraft := ⟨some 1, 1/2, 1/4⟩

/-- `create` outcome for `itemF`: every monetary column is 1/8 = 0.125. -/
def aggF : InvoiceAgg :=
  ⟨⟨1, 1, "INV-1", none, 1/8, 0, 0, 1/8, 0, 1/8, "pending"⟩,
   [⟨1, 1, 1, "Widget", "pc", 1/2, 1/4, 1/8⟩], []⟩

/-- Product stock after creating `aggF` (10 - 1/2 = 19/2). -/
def prodsF1 : List Product := [⟨1, "Widget", "pc", 19/2⟩]

/-- C10 counterexample: `create` leaves a total of 0.125, which is not an
integer count of hundredths, so no two-decimal rounding is applied at the
total. -/
theorem create_total_not_rounded :
    Invoice.create 1 dataZ [itemF] prodsA 1 "INV-1" = .ok (aggF, prodsF1) ∧
    aggF.inv.total_amount = 1/8 ∧
    ¬ twoDecimalValue aggF.inv.total_amount := by
  refine ⟨by decide, by decide, ?_⟩
  rintro ⟨k, hk⟩
  have h8 : aggF.inv.total_amount = 1/8 := by decide
  rw [h8] at hk
  have hq : (k : ℚ) * 2 = 25 := by
    field_simp at hk
    linarith
  have hz : (k : ℤ) * 2 = 25 := by exact_mod_cast hq
  omega

/-- C10 (amended): monetary values are computed exactly (the source uses
Python binary floats, not decimals) and no rounding is applied: the created
total equals the raw sum of quantity times unit price plus tax minus
discount, carrying full precision. -/
theorem create_total_exact (shop_id : Nat) (d : InvoiceData)
    (items_data : List ItemDraft) (products : List Product) (iid : Nat)
    (num : String) (agg : InvoiceAgg) (products' : List Product)
    (h : Invoice.create shop_id d items_data products iid num = .ok (agg, products')) :
    agg.inv.total_amount =
      (items_data.map (fun it => it.quantity * it.unit_price)).sum +
        d.tax_amount - d.discount_amount := by
  obtain ⟨hsub, _, _, htot, _, _, _, _, _⟩ :=
    create_ok_fields shop_id d items_data products iid num agg products' h
  rw [htot, hsub]

/-- Witness for C10's amended theorem at the 1/8 input. -/
theorem create_total_exact_witness :
    (Invoice.create 1 dataZ [itemF] prodsA 1 "INV-1" = .ok (aggF, prodsF1)) ∧
    aggF.inv.total_amount =
      (([itemF].map (fun it => it.quantity * it.unit_price)).sum +
        dataZ.tax_amount - dataZ.discount_amount) :=
  ⟨by decide,
   create_total_exact 1 dataZ [itemF] prodsA 1 "INV-1" aggF prodsF1 (by decide)⟩

/-! ### C6: return-quantity validation -/

/-- C6 counterexample: a return list whose single entry has
`returned_quantity = 0` does not fail: `process_return` silently skips the
entry, succeeds, changes nothing and returns 0. -/
theorem processReturn_zero_quantity_skipped :
    Invoice.process_return aggA prodsA1 [⟨1, 0⟩] 5 = .ok (aggA, prodsA1, 0) := by
  decide

/-- C6 (amended): entries with `returned_quantity <= 0` are skipped (a
single such entry behaves exactly like an empty return list), while an
entry with `returned_quantity > 0` that names an unknown invoice item or
exceeds the item's current quantity fails the whole call; the rolled-back
`.error` outcome carries no state change. -/
theorem processReturn_skip_and_reject :
    (∀ (agg : InvoiceAgg) (products : List Product) (iid : Nat) (rq : ℚ)
        (today : ℤ),
        rq ≤ 0 →
        Invoice.process_return agg products [⟨iid, rq⟩] today =
          Invoice.process_return agg products [] today) ∧
    (∀ (agg : InvoiceAgg) (products : List Product) (iid : Nat) (rq : ℚ)
        (rest : List ReturnItem) (today : ℤ),
        0 < rq →
        (agg.items.find? (fun it => it.id = iid) = none ∨
         (∃ orig, agg.items.find? (fun it => it.id = iid) = some orig ∧
           orig.quantity < rq)) →
        ∃ e, Invoice.process_return agg products (⟨iid, rq⟩ :: rest) today =
          .error e) := by
  constructor
  · intro agg products iid rq today hrq
    have hskip : processReturnItems agg.items products [⟨iid, rq⟩] 0 =
        processReturnItems agg.items products [] 0 := by
      simp only [processReturnItems]
      rw [if_neg (not_lt.mpr hrq)]
    simp only [Invoice.process_return, hskip]
  · intro agg products iid rq rest today hrq hbad
    rcases hbad with hnone | ⟨orig, hsome, hlt⟩
    · refine ⟨"Invoice item not found", ?_⟩
      simp [Invoice.process_return, processReturnItems, hrq, hnone]
    · refine ⟨"Cannot return more than original quantity", ?_⟩
      simp [Invoice.process_return, processReturnItems, hrq, hsome, hlt]

/-- Witness for C6's amended theorem: a zero-quantity entry is a no-op and
an over-return (4 of 3) fails. -/
theorem processReturn_skip_reject_witness :
    ((0 : ℚ) ≤ 0 ∧
      Invoice.process_return aggA prodsA1 [⟨1, 0⟩] 5 =
        Invoice.process_return aggA prodsA1 [] 5) ∧
    ((0 : ℚ) < 4 ∧
      ∃ e, Invoice.process_return aggA prodsA1 [⟨1, 4⟩] 5 = .error e) :=
  ⟨⟨le_refl 0, processReturn_skip_and_reject.1 aggA prodsA1 1 0 5 (le_refl 0)⟩,
   ⟨by decide,
    processReturn_skip_and_reject.2 aggA prodsA1 1 4 [] 5 (by decide)
      (Or.inr ⟨⟨1, 1, 1, "Widget", "pc", 3, 100, 300⟩, by decide, by decide⟩)⟩⟩

/-! ### C2: payments reconciliation -/

theorem sumPayments_append (xs : List PaymentRow) (pr : PaymentRow) :
    sumPayments (xs ++ [pr]) = sumPayments xs + pr.amount := by
  simp [sumPayments]

/-- With pairwise-distinct item ids, any member sharing the id found by
`find?` is the found row itself. -/
theorem find?_unique_of_nodup_keys (iid : Nat) :
    ∀ (items : List InvoiceItemRow) (orig : InvoiceItemRow),
      items.find? (fun it => it.id = iid) = some orig →
      ((items.map (fun it => it.id)).Nodup) →
      ∀ it ∈ items, it.id = iid → it = orig := by
  intro items
  induction items with
  | nil => intro orig h; simp at h
  | cons hd tl ih =>
    intro orig hfind hnd it hmem hid
    rw [List.map_cons, List.nodup_cons] at hnd
    obtain ⟨hnotin, hndtl⟩ := hnd
    by_cases hh : hd.id = iid
    · have horig : orig = hd := by
        rw [List.find?_cons_of_pos _ (by simpa using hh)] at hfind
        exact (Option.some.inj hfind).symm
      subst horig
      rcases List.mem_cons.mp hmem with rfl | hmem'
      · rfl
      · exact absurd (List.mem_map.mpr ⟨it, hmem', hid.trans hh.symm⟩) hnotin
    · rw [List.find?_cons_of_neg _ (by simpa using hh)] at hfind
      rcases List.mem_cons.mp hmem with rfl | hmem'
      · exact absurd hid hh
      · exact ih orig hfind hndtl it hmem' hid

/-- Updating the one row `find?` located (ids pairwise distinct) changes
the total-price sum by replacing that row's `total_price`. -/
theorem sumTP_map_update (iid : Nat) (newq ntp : ℚ) :
    ∀ (items : List InvoiceItemRow) (orig : InvoiceItemRow),
      items.find? (fun it => it.id = iid) = some orig →
      ((items.map (fun it => it.id)).Nodup) →
      sumTotalPrice (items.map (fun it =>
        if it.id = iid then { it with quantity := newq, total_price := ntp }
        else it)) =
        sumTotalPrice items - orig.total_price + ntp := by
  intro items
  induction items with
  | nil => intro orig h; simp at h
  | cons hd tl ih =>
    intro orig hfind hnd
    rw [List.map_cons, List.nodup_cons] at hnd
    obtain ⟨hnotin, hndtl⟩ := hnd
    by_cases hh : hd.id = iid
    · have horig : orig = hd := by
        rw [List.find?_cons_of_pos _ (by simpa using hh)] at hfind
        exact (Option.some.inj hfind).symm
      subst horig
      have htl : tl.map (fun it =>
          if it.id = iid then { it with quantity := newq, total_price := ntp }
          else it) = tl := by
        conv_rhs => rw [← List.map_id tl]
        apply List.map_congr_left
        intro it hmem
        have : ¬ (it.id = iid) := fun hcon =>
          hnotin (List.mem_map.mpr ⟨it, hmem, hcon.trans hh.symm⟩)
        simp [this]
      simp only [List.map_cons, if_pos hh, sumTotalPrice, htl]
      simp [List.sum_cons]
      ring
    · rw [List.find?_cons_of_neg _ (by simpa using hh)] at hfind
      have hrec := ih orig hfind hndtl
      simp only [List.map_cons, if_neg hh, sumTotalPrice, List.map_cons] at hrec ⊢
      simp only [List.sum_cons]
      have hrec' : ((tl.map (fun it =>
          if it.id = iid then { it with quantity := newq, total_price := ntp }
          else it)).map (fun it => it.total_price)).sum =
          (tl.map (fun it => it.total_price)).sum - orig.total_price + ntp := hrec
      rw [hrec']
      ring

/-- Through a successful per-item loop run: the total-price sum drops by
exactly the accumulated return amount, and the accumulator only grows
(items consistent: `total_price = quantity * unit_price`, nonnegative unit
prices, pairwise-distinct ids). -/
theorem processReturnItems_sum_spec :
    ∀ (rets : List ReturnItem) (items : List InvoiceItemRow)
      (products : List Product) (acc : ℚ) (items' : List InvoiceItemRow)
      (products' : List Product) (r : ℚ),
      (∀ it ∈ items, it.total_price = it.quantity * it.unit_price ∧
        0 ≤ it.unit_price) →
      ((items.map (fun it => it.id)).Nodup) →
      processReturnItems items products rets acc = .ok (items', products', r) →
      sumTotalPrice items' + (r - acc) = sumTotalPrice items ∧ acc ≤ r := by
  intro rets
  induction rets with
  | nil =>
    intro items products acc items' products' r hwf hnd h
    simp only [processReturnItems, Except.ok.injEq, Prod.mk.injEq] at h
    obtain ⟨h1, h2, h3⟩ := h
    subst h1; subst h3
    simp
  | cons r0 rest ih =>
    intro items products acc items' products' r hwf hnd h
    by_cases hq : r0.returned_quantity > 0
    · cases hfind : items.find? (fun it => it.id = r0.invoice_item_id) with
      | none => simp [processReturnItems, hq, hfind] at h
      | some orig =>
        by_cases hover : r0.returned_quantity > orig.quantity
        · simp [processReturnItems, hq, hfind, hover] at h
        · have hmemorig : orig ∈ items := List.mem_of_find?_eq_some hfind
          have hup : 0 ≤ orig.unit_price := (hwf orig hmemorig).2
          have htp : orig.total_price = orig.quantity * orig.unit_price :=
            (hwf orig hmemorig).1
          have hrec : processReturnItems
              (items.map (fun it =>
                if it.id = r0.invoice_item_id then
                  { it with quantity := orig.quantity - r0.returned_quantity, total_price := (orig.quantity - r0.returned_quantity) * orig.unit_price }
                else it))
              (products.map (fun p =>
                if p.id = orig.product_id then
                  { p with stock_quantity := p.stock_quantity + r0.returned_quantity }
                else p))
              rest (acc + r0.returned_quantity * orig.unit_price) =
              .ok (items', products', r) := by
            simpa [processReturnItems, hq, hfind, hover] using h
          have hwf1 : ∀ it ∈ items.map (fun it =>
              if it.id = r0.invoice_item_id then
                { it with quantity := orig.quantity - r0.returned_quantity, total_price := (orig.quantity - r0.returned_quantity) * orig.unit_price }
              else it),
              it.total_price = it.quantity * it.unit_price ∧
                0 ≤ it.unit_price := by
            intro it' hmem'
            obtain ⟨it, hmem, heq⟩ := List.mem_map.mp hmem'
            by_cases hid : it.id = r0.invoice_item_id
            · have hit : it = orig :=
                find?_unique_of_nodup_keys r0.invoice_item_id items orig hfind
                  hnd it hmem hid
              subst hit
              rw [if_pos hid] at heq
              rw [← heq]
              exact ⟨rfl, hup⟩
            · rw [if_neg hid] at heq
              rw [← heq]
              exact hwf it hmem
          have hids : (items.map (fun it =>
              if it.id = r0.invoice_item_id then
                { it with quantity := orig.quantity - r0.returned_quantity, total_price := (orig.quantity - r0.returned_quantity) * orig.unit_price }
              else it)).map (fun it => it.id) = items.map (fun it => it.id) := by
            rw [List.map_map]
            apply List.map_congr_left
            intro it _
            by_cases hid : it.id = r0.invoice_item_id <;> simp [hid]
          have hnd1 : ((items.map (fun it =>
              if it.id = r0.invoice_item_id then
                { it with quantity := orig.quantity - r0.returned_quantity, total_price := (orig.quantity - r0.returned_quantity) * orig.unit_price }
              else it)).map (fun it => it.id)).Nodup := by
            rw [hids]; exact hnd
          have hIH := ih _ _ _ items' products' r hwf1 hnd1 hrec
          have hsum1 := sumTP_map_update r0.invoice_item_id
            (orig.quantity - r0.returned_quantity)
            ((orig.quantity - r0.returned_quantity) * orig.unit_price)
            items orig hfind hnd
          have hra : 0 ≤ r0.returned_quantity * orig.unit_price :=
            mul_nonneg (le_of_lt hq) hup
          constructor
          · have hexp : (orig.quantity - r0.returned_quantity) *
                orig.unit_price = orig.quantity * orig.unit_price -
                  r0.returned_quantity * orig.unit_price := by ring
            have h1 := hIH.1
            rw [hsum1] at h1
            rw [hexp] at h1
            rw [← htp] at h1
            linarith
          · have h2 := hIH.2
            linarith
    · have hrec : processReturnItems items products rest acc =
          .ok (items', products', r) := by
        simpa [processReturnItems, hq] using h
      exact ih items products acc items' products' r hwf hnd hrec

/-- `create` outcome for `dataP` (initial payment 100, no tax/discount):
`paid_amount` is 100 yet no payment row exists. -/
def aggP : InvoiceAgg :=
  ⟨⟨1, 1, "INV-1", none, 300, 0, 0, 300, 100, 200, "partial"⟩,
   [⟨1, 1, 1, "Widget", "pc", 3, 100, 300⟩], []⟩

/-- C2 counterexample: `create` with a positive initial `paid_amount`
records no payment row, so immediately after create the payment sum (0)
differs from `paid_amount` (100). -/
theorem create_initial_payment_unrecorded :
    Invoice.create 1 dataP [itemA] prodsA 1 "INV-1" = .ok (aggP, prodsA1) ∧
    sumPayments aggP.payments = 0 ∧ aggP.inv.paid_amount = 100 ∧
    sumPayments aggP.payments ≠ aggP.inv.paid_amount := by
  decide

/-- C2 (amended): the reconciliation invariant `Σ payments.amount =
paid_amount` holds after `create` only when the initial payment is zero
(create records no payment row for a positive one); `add_payment` preserves
it unconditionally, and `process_return` preserves it in any consistent
state (nonnegative paid amount, stored total tied to the item rows,
`total_price = quantity * unit_price` with nonnegative unit prices, and
pairwise-distinct item ids). -/
theorem payments_reconciliation :
    (∀ (shop_id : Nat) (d : InvoiceData) (items_data : List ItemDraft)
        (products : List Product) (iid : Nat) (num : String)
        (agg : InvoiceAgg) (products' : List Product),
        Invoice.create shop_id d items_data products iid num = .ok (agg, products') →
        d.paid_amount = 0 →
        sumPayments agg.payments = agg.inv.paid_amount) ∧
    (∀ (agg : InvoiceAgg) (amount : ℚ) (m : String) (pd : ℤ)
        (ref : Option String) (agg' : InvoiceAgg),
        Invoice.add_payment agg amount m pd ref = .ok agg' →
        sumPayments agg.payments = agg.inv.paid_amount →
        sumPayments agg'.payments = agg'.inv.paid_amount) ∧
    (∀ (agg : InvoiceAgg) (products : List Product) (rets : List ReturnItem)
        (today : ℤ) (agg' : InvoiceAgg) (products' : List Product) (r : ℚ),
        0 ≤ agg.inv.paid_amount →
        agg.inv.total_amount = sumTotalPrice agg.items + agg.inv.tax_amount -
          agg.inv.discount_amount →
        (∀ it ∈ agg.items, it.total_price = it.quantity * it.unit_price ∧
          0 ≤ it.unit_price) →
        ((agg.items.map (fun it => it.id)).Nodup) →
        Invoice.process_return agg products rets today = .ok (agg', products', r) →
        sumPayments agg.payments = agg.inv.paid_amount →
        sumPayments agg'.payments = agg'.inv.paid_amount) := by
  refine ⟨?_, ?_, ?_⟩
  · intro shop_id d items_data products iid num agg products' h hzero
    obtain ⟨_, _, _, _, hpaid, _, _, _, hpayments⟩ :=
      create_ok_fields shop_id d items_data products iid num agg products' h
    rw [hpayments, hpaid, hzero]
    simp [sumPayments]
  · intro agg amount m pd ref agg' h hsum
    obtain ⟨_, _, hpaid, _, _, _, _, _, _, _, hpay⟩ :=
      add_payment_ok_fields agg amount m pd ref agg' h
    rw [hpay, sumPayments_append, hsum, hpaid]
  · intro agg products rets today agg' products' r hP htotIn hwf hnd h hsum
    obtain ⟨hloop, htot, hpaid, _, _, _, _, _, _, hpay⟩ :=
      process_return_ok_fields agg products rets today agg' products' r h
    obtain ⟨hsumTP, hr0⟩ := processReturnItems_sum_spec rets agg.items products
      0 agg'.items products' r hwf hnd hloop
    have hNTle : agg'.inv.total_amount ≤ agg.inv.total_amount := by
      rw [htot, htotIn]
      linarith
    have hNP : agg'.inv.paid_amount ≤ agg.inv.paid_amount := by
      rw [hpaid]
      by_cases hgt : agg.inv.paid_amount > agg'.inv.total_amount
      · rw [if_pos hgt]
        exact le_of_lt hgt
      · rw [if_neg hgt]
        by_cases hp : agg.inv.paid_amount > 0
        · rw [if_pos hp]
          by_cases hT : agg.inv.total_amount > 0
          · rw [if_pos hT]
            have hTne : agg.inv.total_amount ≠ 0 := ne_of_gt hT
            have hfr : agg.inv.total_amount *
                (agg.inv.paid_amount / agg.inv.total_amount) =
                agg.inv.paid_amount := by
              field_simp
            calc min agg'.inv.total_amount (agg'.inv.total_amount *
                  (agg.inv.paid_amount / agg.inv.total_amount))
                ≤ agg'.inv.total_amount *
                  (agg.inv.paid_amount / agg.inv.total_amount) :=
                  min_le_right _ _
              _ ≤ agg.inv.total_amount *
                  (agg.inv.paid_amount / agg.inv.total_amount) := by
                  exact mul_le_mul_of_nonneg_right hNTle
                    (div_nonneg (le_of_lt hp) (le_of_lt hT))
              _ = agg.inv.paid_amount := hfr
          · rw [if_neg hT]
            exact le_of_lt hp
        · rw [if_neg hp]
          exact hP
    by_cases hrf : agg.inv.paid_amount - agg'.inv.paid_amount > 0
    · rw [hpay, if_pos hrf, sumPayments_append, hsum]
      show agg.inv.paid_amount +
        -(agg.inv.paid_amount - agg'.inv.paid_amount) = agg'.inv.paid_amount
      ring
    · rw [hpay, if_neg hrf, hsum]
      have hge : agg.inv.paid_amount ≤ agg'.inv.paid_amount := by
        have := not_lt.mp hrf
        linarith
      linarith

/-- Witness for C2's amended theorem along the Scenario A → B → E chain. -/
theorem payments_reconciliation_witness :
    (dataA.paid_amount = 0 ∧
     Invoice.create 1 dataA [itemA] prodsA 1 "INV-1" = .ok (aggA, prodsA1) ∧
     sumPayments aggA.payments = aggA.inv.paid_amount) ∧
    (Invoice.add_payment aggA 305 "cash" 5 none = .ok aggB ∧
     sumPayments aggB.payments = aggB.inv.paid_amount) ∧
    (0 ≤ aggB.inv.paid_amount ∧
     aggB.inv.total_amount = sumTotalPrice aggB.items + aggB.inv.tax_amount -
       aggB.inv.discount_amount ∧
     Invoice.process_return aggB prodsA1 [⟨1, 1⟩] 6 = .ok (aggE, prodsE, 100) ∧
     sumPayments aggE.payments = aggE.inv.paid_amount) :=
  ⟨⟨by decide, by decide,
    payments_reconciliation.1 1 dataA [itemA] prodsA 1 "INV-1" aggA prodsA1
      (by decide) (by decide)⟩,
   ⟨by decide,
    payments_reconciliation.2.1 aggA 305 "cash" 5 none aggB (by decide)
      (by decide)⟩,
   ⟨by decide, by decide, by decide,
    payments_reconciliation.2.2 aggB prodsA1 [⟨1, 1⟩] 6 aggE prodsE 100
      (by decide) (by decide) (by decide) (by decide) (by decide)
      (by decide)⟩⟩

end Billing
